import Mathlib

/- Shallow embedding of the channel administration commands
   (src/discord_bot_commands.rs), of the Discord reconciliation engine
   (src/discord_sync.rs) and of the message dispatcher (src/discord_bot.rs).

   Modelling conventions:
   - Redis u64 ids are `Nat`; Redis sets are `Finset Nat`;
   - RFC-3339 instants (always compared after parsing) are `Nat`;
   - single-valued Redis keys are `Option` values; key families are
     functions `Nat → Option _`;
   - remote Discord calls are modelled by their observable effect on the
     embedded state; calls whose outcome is decided by the remote side
     (liveness probes, deletions of temporary resources) take that outcome
     as an explicit parameter. -/

namespace DiscordBot

/- ### Channel admin commands: get_channel_roles, close_channel,
   channel_add_or_remove_user (src/discord_bot_commands.rs) -/

/- Mirrors `struct ChannelRoles` -/
structure ChannelRoles where
  user : Nat
  host : Nat
  deriving DecidableEq

/- Mirrors `get_channel_roles`: reads the channel's `:discord_role` and
   `:discord_host_role` keys (passed here as the two arguments) and
   classifies the channel. -/
def get_channel_roles (role hostRole : Option Nat) :
    Except String (Option ChannelRoles) :=
  match role, hostRole with
  | some r, some h => .ok (some { user := r, host := h })
  | none, none => .ok none
  | _, _ => .error "Channel has only one of two roles"

/- The per-channel closure keys of the Store:
   `discord_channel:<c>:expiration_time` and `discord_channel:<c>:deletion_time`. -/
structure ChannelCloseState where
  expiration_time : Option Nat
  deletion_time : Option Nat
  deriving DecidableEq

inductive CloseResponse where
  | notBotControlled
  | notChannelAdmin
  | notYetCloseable
  | alreadyMarked
  | marked
  deriving DecidableEq

/- The tail of `close_channel`: compute `new_deletion_time = now`, read the
   current deletion time, refuse when `new_deletion_time > current`,
   otherwise write `new_deletion_time`. -/
def close_channel_mark (now : Nat) (s : ChannelCloseState) :
    ChannelCloseState × CloseResponse :=
  let new_deletion_time := now
  match s.deletion_time with
  | some current =>
    if new_deletion_time > current then (s, .alreadyMarked)
    else ({ s with deletion_time := some new_deletion_time }, .marked)
  | none => ({ s with deletion_time := some new_deletion_time }, .marked)

/- Mirrors `close_channel`: the bot-control gate, the organizer/host
   authorization gate, the expiration-time check, then the marking step.
   `isOrganizer`/`isHost` are the results of the two Discord role probes. -/
def close_channel (roleKV hostRoleKV : Option Nat) (isOrganizer isHost : Bool)
    (now : Nat) (s : ChannelCloseState) :
    Except String (ChannelCloseState × CloseResponse) :=
  match get_channel_roles roleKV hostRoleKV with
  | .error e => .error e
  | .ok none => .ok (s, .notBotControlled)
  | .ok (some _) =>
    if !isOrganizer && !isHost then .ok (s, .notChannelAdmin)
    else
      match s.expiration_time with
      | some expiration =>
        if expiration > now then .ok (s, .notYetCloseable)
        else .ok (close_channel_mark now s)
      | none => .ok (close_channel_mark now s)

/- The branch condition of the expiration check of `close_channel`. -/
def expirationBlocks (s : ChannelCloseState) (now : Nat) : Bool :=
  match s.expiration_time with
  | some expiration => expiration > now
  | none => false

/- The branch condition of the deletion-time check of `close_channel`:
   the stored deletion time exists and `now` is strictly greater. -/
def deletionTimePassed (s : ChannelCloseState) (now : Nat) : Bool :=
  match s.deletion_time with
  | some current => now > current
  | none => false

/- Repeated `close_channel` invocations folded over a list of invocation
   times; an error leaves the Store untouched (the command errors before
   any write). -/
def close_channel_runs (roleKV hostRoleKV : Option Nat)
    (isOrganizer isHost : Bool) (ts : List Nat) (s : ChannelCloseState) :
    ChannelCloseState :=
  ts.foldl
    (fun st t =>
      match close_channel roleKV hostRoleKV isOrganizer isHost t st with
      | .ok (st2, _) => st2
      | .error _ => st) s

/- Discord-side role membership: which users hold each role. -/
structure GuildState where
  roleMembers : Nat → Finset Nat

/- Mirrors `ctx.http.add_member_role`. -/
def guild_add_role (g : GuildState) (role userId : Nat) : GuildState :=
  { roleMembers := fun r =>
      if r = role then insert userId (g.roleMembers role) else g.roleMembers r }

/- Mirrors `ctx.http.remove_member_role`. -/
def guild_remove_role (g : GuildState) (role userId : Nat) : GuildState :=
  { roleMembers := fun r =>
      if r = role then (g.roleMembers role).erase userId else g.roleMembers r }

/- The per-channel manual-removal sets of the Store:
   `discord_channel:<c>:removed_users` and `discord_channel:<c>:removed_hosts`. -/
structure ChannelState where
  removed_users : Finset Nat
  removed_hosts : Finset Nat
  deriving DecidableEq

inductive AdminResponse where
  | notBotControlled
  | notChannelAdmin
  | done
  deriving DecidableEq

/- Mirrors `channel_add_or_remove_user`: bot-control gate, authorization
   gate, then either the add branch (user role always, host role if
   `asHost`) or the remove branch (host role always, user role unless
   `asHost`, then record the removal in `removed_hosts` or `removed_users`). -/
def channel_add_or_remove_user (roleKV hostRoleKV : Option Nat)
    (isOrganizer isHost : Bool) (g : GuildState) (ch : ChannelState)
    (discordId : Nat) (add asHost : Bool) :
    Except String (GuildState × ChannelState × AdminResponse) :=
  match get_channel_roles roleKV hostRoleKV with
  | .error e => .error e
  | .ok none => .ok (g, ch, .notBotControlled)
  | .ok (some roles) =>
    if !isOrganizer && !isHost then .ok (g, ch, .notChannelAdmin)
    else if add then
      let g1 := guild_add_role g roles.user discordId
      let g2 := if asHost then guild_add_role g1 roles.host discordId else g1
      .ok (g2, ch, .done)
    else
      let g1 := guild_remove_role g roles.host discordId
      let g2 := if !asHost then guild_remove_role g1 roles.user discordId else g1
      let ch2 :=
        if asHost then { ch with removed_hosts := insert discordId ch.removed_hosts }
        else { ch with removed_users := insert discordId ch.removed_users }
      .ok (g2, ch2, .done)

/- ### Identity linking: link_meetup_organizer, unlink_meetup
   (src/discord_bot_commands.rs) -/

/- The identity-linking keys of the Store: the two direction maps
   `discord_user:<d>:meetup_user` / `meetup_user:<m>:discord_user` and the
   global sets `meetup_users` / `discord_users`. -/
structure LinkState where
  d2m : Nat → Option Nat
  m2d : Nat → Option Nat
  meetup_users : Finset Nat
  discord_users : Finset Nat

inductive LinkResponse where
  | alreadyLinkedSame
  | alreadyLinkedOther
  | meetupAlreadyLinked
  | profileDoesNotExist
  | success
  | raceConflict
  deriving DecidableEq

/- Mirrors `link_meetup_organizer`: pre-checks on both direction keys, the
   Meetup profile existence probe (its outcome passed as `profileExists`),
   then the transaction watching both keys which re-reads them and binds
   both directions and adds to both global sets if still free. -/
def link_meetup_organizer (profileExists : Bool) (s : LinkState)
    (discordId meetupId : Nat) : LinkState × LinkResponse :=
  match s.d2m discordId with
  | some linked =>
    if linked = meetupId then (s, .alreadyLinkedSame) else (s, .alreadyLinkedOther)
  | none =>
    match s.m2d meetupId with
    | some _ => (s, .meetupAlreadyLinked)
    | none =>
      if !profileExists then (s, .profileDoesNotExist)
      else
        match s.d2m discordId, s.m2d meetupId with
        | none, none =>
          ({ d2m := fun x => if x = discordId then some meetupId else s.d2m x,
             m2d := fun y => if y = meetupId then some discordId else s.m2d y,
             meetup_users := insert meetupId s.meetup_users,
             discord_users := insert discordId s.discord_users }, .success)
        | _, _ => (s, .raceConflict)

/- Mirrors `unlink_meetup`: read `d2m`; if a Meetup id is linked, delete
   both direction keys in one pipeline; the global sets are not touched.
   Returns whether anything was removed. -/
def unlink_meetup (s : LinkState) (discordId : Nat) : LinkState × Bool :=
  match s.d2m discordId with
  | some meetupId =>
    ({ s with
        d2m := fun x => if x = discordId then none else s.d2m x,
        m2d := fun y => if y = meetupId then none else s.m2d y }, true)
  | none => (s, false)

/- ### Role propagation: sync_user_role_assignments (src/discord_sync.rs) -/

/- Mirrors `sync_user_role_assignments` for one role of one channel:
   `meetupUserIds` is the SUNION of the events' RSVP (or host) sets, `m2d`
   the `meetup_user:<m>:discord_user` key family.  Unmapped Meetup users
   are dropped; users in the suppression set are skipped; every remaining
   Discord user ends up holding `role`. -/
def sync_user_role_assignments (meetupUserIds : List Nat)
    (m2d : Nat → Option Nat) (ch : ChannelState) (g : GuildState)
    (role : Nat) (isHostRole : Bool) : GuildState :=
  let discordUserIds := meetupUserIds.filterMap m2d
  let ignoreDiscordUserIds : Finset Nat :=
    if isHostRole then ch.removed_hosts ∪ ch.removed_users
    else ch.removed_users
  { roleMembers := fun r =>
      if r = role then
        g.roleMembers role ∪
          (discordUserIds.filter (fun u => !decide (u ∈ ignoreDiscordUserIds))).toFinset
      else g.roleMembers r }

/- The membership-relevant inputs of one reconciliation sweep for one
   series: the unions of the events' `meetup_users` and `meetup_hosts`
   sets and the identity map in force during that sweep. -/
structure SweepInput where
  rsvpMeetupUsers : List Nat
  rsvpMeetupHosts : List Nat
  m2d : Nat → Option Nat

/- Step 5 of `sync_event_series`: propagate membership to the user role
   and then to the host role. -/
def sweep_roles (inp : SweepInput) (userRole hostRole : Nat)
    (ch : ChannelState) (g : GuildState) : GuildState :=
  let g1 := sync_user_role_assignments inp.rsvpMeetupUsers inp.m2d ch g userRole false
  sync_user_role_assignments inp.rsvpMeetupHosts inp.m2d ch g1 hostRole true

/- Any number of reconciliation sweeps; sweeps read but never write the
   manual-removal sets, so `ch` is constant across them. -/
def sweep_roles_runs (inps : List SweepInput) (userRole hostRole : Nat)
    (ch : ChannelState) (g : GuildState) : GuildState :=
  inps.foldl (fun gAcc inp => sweep_roles inp userRole hostRole ch gAcc) g

/- ### Resource reconciler, role slot: sync_role_impl / sync_role
   (src/discord_sync.rs) -/

/- The Store keys touched by the role reconciler for one fixed slot (one
   channel and one of its two roles): the slot key
   `discord_channel:<c>:discord_role` (or `:discord_host_role`), the
   reverse key family `discord_role:<r>:discord_channel`, the global index
   set `discord_roles` (or `discord_host_roles`) and the
   `orphaned_discord_roles` set; `remoteRoles` is the set of roles that
   exist on Discord. -/
structure RoleSlotState where
  channelRole : Option Nat
  roleChannel : Nat → Option Nat
  discordRoles : Finset Nat
  orphanedDiscordRoles : Finset Nat
  remoteRoles : Finset Nat

/- The bind-or-discard transaction of `sync_role_impl`, watching the slot
   key: if some role is already recorded, return it unchanged; otherwise
   bind the temporary role (global set, slot key, reverse key). -/
def role_bind_txn (s : RoleSlotState) (channelId tempRoleId : Nat) :
    RoleSlotState × Nat :=
  match s.channelRole with
  | some channelRole => (s, channelRole)
  | none =>
    ({ s with
        discordRoles := insert tempRoleId s.discordRoles,
        channelRole := some tempRoleId,
        roleChannel := fun r => if r = tempRoleId then some channelId else s.roleChannel r },
     tempRoleId)

/- The tail of `sync_role_impl`: if the role returned by the transaction
   is not the temporary one, delete the temporary role on Discord;
   `deleteOk` is the outcome of that deletion, and on failure the id is
   recorded in `orphaned_discord_roles`. -/
def role_discard_temp (s : RoleSlotState) (tempRoleId boundRoleId : Nat)
    (deleteOk : Bool) : RoleSlotState :=
  if boundRoleId ≠ tempRoleId then
    if deleteOk then { s with remoteRoles := s.remoteRoles.erase tempRoleId }
    else { s with orphanedDiscordRoles := insert tempRoleId s.orphanedDiscordRoles }
  else s

/- Mirrors `sync_role_impl` run without interference: fast path on the
   slot key, otherwise create a temporary role on Discord (id `tempRoleId`),
   run the bind-or-discard transaction and the orphan handling. -/
def sync_role_impl (s : RoleSlotState) (channelId tempRoleId : Nat)
    (deleteOk : Bool) : RoleSlotState × Nat :=
  match s.channelRole with
  | some channelRole => (s, channelRole)
  | none =>
    let s1 := { s with remoteRoles := insert tempRoleId s.remoteRoles }
    let p := role_bind_txn s1 channelId tempRoleId
    (role_discard_temp p.1 tempRoleId p.2 deleteOk, p.2)

/- The atomic Store/Discord actions an ensure-style `sync_role` call
   performs; an interleaving of racing calls is a list of these. -/
inductive RoleSyncAction where
  | createRole (tempRoleId : Nat)
  | bindTxn (channelId tempRoleId : Nat)
  | discardTemp (tempRoleId boundRoleId : Nat) (deleteOk : Bool)

def roleSyncStep (s : RoleSlotState) (a : RoleSyncAction) : RoleSlotState :=
  match a with
  | .createRole tempRoleId => { s with remoteRoles := insert tempRoleId s.remoteRoles }
  | .bindTxn channelId tempRoleId => (role_bind_txn s channelId tempRoleId).1
  | .discardTemp tempRoleId boundRoleId deleteOk =>
      role_discard_temp s tempRoleId boundRoleId deleteOk

/- The repair transaction of `sync_role`, watching the slot key: delete
   the stale binding (slot key, reverse key, global set membership) only
   if the slot still holds the value just observed. -/
def role_repair_txn (s : RoleSlotState) (observed : Nat) : RoleSlotState :=
  if s.channelRole = some observed then
    { s with
        channelRole := none,
        roleChannel := fun r => if r = observed then none else s.roleChannel r,
        discordRoles := s.discordRoles.erase observed }
  else s

/- Per-attempt outside world of the `sync_role` loop: the id Discord hands
   out if a temporary role is created, the outcome of deleting a losing
   temporary role, and the outcome of the liveness probe on the returned
   role. -/
structure RoleSyncEnv where
  tempRoleId : Nat → Nat
  deleteOk : Nat → Bool
  roleExists : Nat → Bool

def max_retries : Nat := 1

/- The retry loop of `sync_role`; the fuel argument is
   `max_retries + 1 - current_num_try`, so the `current_num_try > max_retries`
   check of the source is the `0` case. -/
def sync_role_loop (env : RoleSyncEnv) (channelId : Nat) :
    Nat → Nat → RoleSlotState → Except String (RoleSlotState × Nat)
  | 0, _, _ => .error "Role sync failed, max retries reached"
  | fuel + 1, attempt, s =>
    let p := sync_role_impl s channelId (env.tempRoleId attempt) (env.deleteOk attempt)
    if env.roleExists attempt then .ok p
    else sync_role_loop env channelId fuel (attempt + 1) (role_repair_txn p.1 p.2)

/- Mirrors `sync_role` (`max_retries = 1`, `current_num_try` from 0). -/
def sync_role (env : RoleSyncEnv) (channelId : Nat) (s : RoleSlotState) :
    Except String (RoleSlotState × Nat) :=
  sync_role_loop env channelId (max_retries + 1) 0 s

/- ### Resource reconciler, channel slot: sync_channel_impl / sync_channel
   (src/discord_sync.rs) -/

/- The Store keys touched by the channel reconciler for one fixed series:
   the slot key `event_series:<s>:discord_channel`, the reverse key family
   `discord_channel:<c>:event_series`, the global index set
   `discord_channels` and the `orphaned_discord_channels` set;
   `remoteChannels` is the set of channels that exist on Discord. -/
structure ChannelSlotState where
  seriesChannel : Option Nat
  channelSeries : Nat → Option String
  discordChannels : Finset Nat
  orphanedDiscordChannels : Finset Nat
  remoteChannels : Finset Nat

/- The bind-or-discard transaction of `sync_channel_impl`. -/
def channel_bind_txn (s : ChannelSlotState) (eventSeriesId : String)
    (tempChannelId : Nat) : ChannelSlotState × Nat :=
  match s.seriesChannel with
  | some channel => (s, channel)
  | none =>
    ({ s with
        discordChannels := insert tempChannelId s.discordChannels,
        seriesChannel := some tempChannelId,
        channelSeries := fun c =>
          if c = tempChannelId then some eventSeriesId else s.channelSeries c },
     tempChannelId)

/- The tail of `sync_channel_impl`: delete a losing temporary channel on
   Discord, recording it in `orphaned_discord_channels` on failure. -/
def channel_discard_temp (s : ChannelSlotState) (tempChannelId boundChannelId : Nat)
    (deleteOk : Bool) : ChannelSlotState :=
  if boundChannelId ≠ tempChannelId then
    if deleteOk then { s with remoteChannels := s.remoteChannels.erase tempChannelId }
    else { s with orphanedDiscordChannels := insert tempChannelId s.orphanedDiscordChannels }
  else s

/- Mirrors `sync_channel_impl` run without interference. -/
def sync_channel_impl (s : ChannelSlotState) (eventSeriesId : String)
    (tempChannelId : Nat) (deleteOk : Bool) : ChannelSlotState × Nat :=
  match s.seriesChannel with
  | some channel => (s, channel)
  | none =>
    let s1 := { s with remoteChannels := insert tempChannelId s.remoteChannels }
    let p := channel_bind_txn s1 eventSeriesId tempChannelId
    (channel_discard_temp p.1 tempChannelId p.2 deleteOk, p.2)

inductive ChannelSyncAction where
  | createChannel (tempChannelId : Nat)
  | bindTxn (eventSeriesId : String) (tempChannelId : Nat)
  | discardTemp (tempChannelId boundChannelId : Nat) (deleteOk : Bool)

def channelSyncStep (s : ChannelSlotState) (a : ChannelSyncAction) : ChannelSlotState :=
  match a with
  | .createChannel tempChannelId =>
      { s with remoteChannels := insert tempChannelId s.remoteChannels }
  | .bindTxn eventSeriesId tempChannelId =>
      (channel_bind_txn s eventSeriesId tempChannelId).1
  | .discardTemp tempChannelId boundChannelId deleteOk =>
      channel_discard_temp s tempChannelId boundChannelId deleteOk

/- The repair transaction of `sync_channel`, watching the slot key. -/
def channel_repair_txn (s : ChannelSlotState) (observed : Nat) : ChannelSlotState :=
  if s.seriesChannel = some observed then
    { s with
        seriesChannel := none,
        channelSeries := fun c => if c = observed then none else s.channelSeries c,
        discordChannels := s.discordChannels.erase observed }
  else s

/- Per-attempt outside world of the `sync_channel` loop; `channelExists`
   is the outcome of the `to_channel` probe (the not-found case — other
   HTTP errors abort the whole series sync and are not modelled here). -/
structure ChannelSyncEnv where
  tempChannelId : Nat → Nat
  deleteOk : Nat → Bool
  channelExists : Nat → Bool

/- The retry loop of `sync_channel` (same budget as `sync_role`). -/
def sync_channel_loop (env : ChannelSyncEnv) (eventSeriesId : String) :
    Nat → Nat → ChannelSlotState → Except String (ChannelSlotState × Nat)
  | 0, _, _ => .error "Channel sync failed, max retries reached"
  | fuel + 1, attempt, s =>
    let p := sync_channel_impl s eventSeriesId (env.tempChannelId attempt)
      (env.deleteOk attempt)
    if env.channelExists attempt then .ok p
    else sync_channel_loop env eventSeriesId fuel (attempt + 1)
      (channel_repair_txn p.1 p.2)

/- Mirrors `sync_channel`. -/
def sync_channel (env : ChannelSyncEnv) (eventSeriesId : String)
    (s : ChannelSlotState) : Except String (ChannelSlotState × Nat) :=
  sync_channel_loop env eventSeriesId (max_retries + 1) 0 s

/- ### Series-name derivation (step 0 of sync_event_series,
   src/discord_sync.rs) -/

/- The whitespace class of the EVENT_NAME_REGEX (ASCII part of the regex
   crate's Unicode-aware backslash-s class; event names in the claims are
   ASCII). -/
def regexWs (c : Char) : Bool :=
  c = ' ' || c = Char.ofNat 9 || c = Char.ofNat 10 || c = Char.ofNat 13 ||
  c = Char.ofNat 11 || c = Char.ofNat 12

/- The character class excluding an opening square bracket and an opening
   parenthesis. -/
def nameClassOk (c : Char) : Bool :=
  c ≠ '[' && c ≠ '('

/- The final character class of the capture: additionally excludes
   whitespace. -/
def lastClassOk (c : Char) : Bool :=
  !regexWs c && c ≠ '[' && c ≠ '('

/- Leftmost-first match of the tail of the capture group: a possibly
   empty greedy run of `nameClassOk` characters followed by one
   `lastClassOk` character; on failure the greedy run backtracks. -/
def capStarMatch : List Char → Option (List Char)
  | [] => none
  | c :: rest =>
    if nameClassOk c then
      match capStarMatch rest with
      | some cap => some (c :: cap)
      | none => if lastClassOk c then some [c] else none
    else none

/- The full capture group of EVENT_NAME_REGEX: at least one `nameClassOk`
   character, then `capStarMatch`. -/
def capPlusMatch : List Char → Option (List Char)
  | [] => none
  | c :: rest =>
    if nameClassOk c then (capStarMatch rest).map (fun cap => c :: cap)
    else none

/- Mirrors the anchored EVENT_NAME_REGEX: a greedy, backtracking run of
   whitespace from the start of the haystack, then the capture group. -/
def seriesNameMatch : List Char → Option (List Char)
  | [] => none
  | c :: rest =>
    if regexWs c then
      match seriesNameMatch rest with
      | some cap => some cap
      | none => capPlusMatch (c :: rest)
    else capPlusMatch (c :: rest)

/- The named capture of EVENT_NAME_REGEX applied to an event name. -/
def seriesNameOf (eventName : String) : Option String :=
  (seriesNameMatch eventName.data).map (fun cap => String.mk cap)

/- Rust `str::len` is the UTF-8 byte length. -/
def charUtf8Len (c : Char) : Nat :=
  if c.toNat < 128 then 1
  else if c.toNat < 2048 then 2
  else if c.toNat < 65536 then 3
  else 4

def rustStrLen (s : String) : Nat :=
  (s.data.map charUtf8Len).sum

/- Step 0 of `sync_event_series`: regex miss or a captured length outside
   2..80 bytes is a series-level error. -/
def derive_series_name (eventName : String) : Except String String :=
  match seriesNameOf eventName with
  | none =>
    .error ("Could not extract a series name from the event " ++ eventName)
  | some series_name =>
    if rustStrLen series_name < 2 || rustStrLen series_name > 80 then
      .error ("Channel name " ++ series_name ++ " is too short or too long")
    else .ok series_name

/- Step 3 of `sync_event_series`: the host role is named from the series
   name. -/
def host_role_name (series_name : String) : String :=
  "[Host] " ++ series_name

/- ### Command regexes and message dispatch (src/discord_bot_commands.rs,
   src/discord_bot.rs) -/

/- Mirrors `struct Regexes` (patterns kept as their source strings). -/
structure Regexes where
  bot_mention : String
  link_meetup_dm : String
  link_meetup_mention : String
  link_meetup_organizer_dm : String
  link_meetup_organizer_mention : String
  unlink_meetup_dm : String
  unlink_meetup_mention : String
  unlink_meetup_organizer_dm : String
  unlink_meetup_organizer_mention : String
  sync_meetup_mention : String
  sync_discord_mention : String
  add_user_mention : String
  add_host_mention : String
  remove_user_mention : String
  remove_host_mention : String
  stop_organizer_dm : String
  stop_organizer_mention : String
  send_expiration_reminder_organizer_mention : String
  close_channel_host_mention : String

/- The DM-or-mention selectors of `impl Regexes`. -/
def Regexes.link_meetup (r : Regexes) (isDm : Bool) : String :=
  if isDm then r.link_meetup_dm else r.link_meetup_mention

def Regexes.link_meetup_organizer (r : Regexes) (isDm : Bool) : String :=
  if isDm then r.link_meetup_organizer_dm else r.link_meetup_organizer_mention

def Regexes.unlink_meetup (r : Regexes) (isDm : Bool) : String :=
  if isDm then r.unlink_meetup_dm else r.unlink_meetup_mention

def Regexes.unlink_meetup_organizer (r : Regexes) (isDm : Bool) : String :=
  if isDm then r.unlink_meetup_organizer_dm else r.unlink_meetup_organizer_mention

def Regexes.stop_organizer (r : Regexes) (isDm : Bool) : String :=
  if isDm then r.stop_organizer_dm else r.stop_organizer_mention

def mention_pattern : String := "<@(?P<mention_id>[0-9]+)>"

/- Mirrors `compile_regexes` (the format! calls written as concatenation). -/
def compile_regexes (botId : Nat) : Regexes :=
  let bot_mention := "<@" ++ toString botId ++ ">"
  let link_meetup_organizer :=
    "link[ -]?meetup\\s+" ++ mention_pattern ++ "\\s+(?P<meetupid>[0-9]+)"
  let unlink_meetup_organizer := "unlink[ -]?meetup\\s+" ++ mention_pattern
  { bot_mention := bot_mention
    link_meetup_dm := "^link[ -]?meetup\\s*$"
    link_meetup_mention := "^" ++ bot_mention ++ "\\s+link[ -]?meetup\\s*$"
    link_meetup_organizer_dm := "^" ++ link_meetup_organizer ++ "\\s*$"
    link_meetup_organizer_mention :=
      "^" ++ bot_mention ++ "\\s+" ++ link_meetup_organizer ++ "\\s*$"
    unlink_meetup_dm := "^unlink[ -]?meetup\\s*$"
    unlink_meetup_mention := "^" ++ bot_mention ++ "\\s+unlink[ -]?meetup\\s*$"
    unlink_meetup_organizer_dm := "^" ++ unlink_meetup_organizer ++ "\\s*$"
    unlink_meetup_organizer_mention :=
      "^" ++ bot_mention ++ "\\s+" ++ unlink_meetup_organizer ++ "\\s*$"
    sync_meetup_mention := "^" ++ bot_mention ++ "\\s+sync\\s+meetup\\s*$"
    sync_discord_mention := "^" ++ bot_mention ++ "\\s+sync\\s+discord\\s*$"
    add_user_mention := "^" ++ bot_mention ++ "\\s+add\\s+" ++ mention_pattern ++ "\\s*$"
    add_host_mention :=
      "^" ++ bot_mention ++ "\\s+add\\s+host\\s+" ++ mention_pattern ++ "\\s*$"
    remove_user_mention :=
      "^" ++ bot_mention ++ "\\s+remove\\s+" ++ mention_pattern ++ "\\s*$"
    remove_host_mention :=
      "^" ++ bot_mention ++ "\\s+remove\\s+host\\s+" ++ mention_pattern ++ "\\s*$"
    stop_organizer_dm := "^(?i)stop\\s*$"
    stop_organizer_mention := "^" ++ bot_mention ++ "\\s+(?i)stop\\s*$"
    send_expiration_reminder_organizer_mention :=
      "^" ++ bot_mention ++ "\\s+(?i)remind\\s+expiration\\s*$"
    close_channel_host_mention := "^" ++ bot_mention ++ "\\s+(?i)close\\s+channel\\s*$" }

/- The is_dm computation of `Handler::message`: `none` means the message
   is ignored; otherwise the returned flag selects between the DM-form and
   the mention-form patterns for the whole dispatch.  Rust
   `str::starts_with` is the character-prefix test. -/
def handler_is_dm (r : Regexes) (isPrivateChannel : Bool) (content : String) :
    Option Bool :=
  let is_dm := isPrivateChannel
  if !is_dm && !(r.bot_mention.data.isPrefixOf content.data) then none
  else if is_dm && r.bot_mention.data.isPrefixOf content.data then some false
  else some is_dm

/- An 81-character event name, used to exercise the length guard of
   `derive_series_name`. -/
def longEventName : String := String.mk (List.replicate 81 'a')

/- ### Theorems -/

lemma close_channel_mark_keeps (t d : Nat) (s : ChannelCloseState)
    (hd : s.deletion_time = some d) (hle : d ≤ t) :
    (close_channel_mark t s).1.deletion_time = some d := by
  unfold close_channel_mark
  rw [hd]
  by_cases hlt : t > d
  · simp [hlt, hd]
  · simp [hlt]
    omega

lemma close_channel_step_keeps (roleKV hostRoleKV : Option Nat)
    (isOrganizer isHost : Bool) (t d : Nat) (s s2 : ChannelCloseState)
    (resp : CloseResponse) (hd : s.deletion_time = some d) (hle : d ≤ t)
    (h : close_channel roleKV hostRoleKV isOrganizer isHost t s = .ok (s2, resp)) :
    s2.deletion_time = some d := by
  have hmark := close_channel_mark_keeps t d s hd hle
  unfold close_channel at h
  split at h
  · exact absurd h (by simp)
  · simp at h
    rw [← h.1, hd]
  · split at h
    · simp at h
      rw [← h.1, hd]
    · split at h
      · split at h
        · simp at h
          rw [← h.1, hd]
        · simp at h
          have h1 := congrArg Prod.fst h
          simp at h1
          rw [← h1]
          exact hmark
      · simp at h
        have h1 := congrArg Prod.fst h
        simp at h1
        rw [← h1]
        exact hmark

lemma close_channel_runs_keeps (roleKV hostRoleKV : Option Nat)
    (isOrganizer isHost : Bool) :
    ∀ (ts : List Nat) (s : ChannelCloseState) (d : Nat),
      s.deletion_time = some d → (∀ t ∈ ts, d ≤ t) →
      (close_channel_runs roleKV hostRoleKV isOrganizer isHost ts s).deletion_time
        = some d := by
  intro ts
  induction ts with
  | nil => intro s d hd _; simpa [close_channel_runs] using hd
  | cons t ts ih =>
    intro s d hd hts
    have hstep :
        (match close_channel roleKV hostRoleKV isOrganizer isHost t s with
         | .ok (st2, _) => st2
         | .error _ => s).deletion_time = some d := by
      rcases hc : close_channel roleKV hostRoleKV isOrganizer isHost t s with e | p
      · simpa using hd
      · rcases p with ⟨s2, resp⟩
        simpa using close_channel_step_keeps roleKV hostRoleKV isOrganizer isHost
          t d s s2 resp hd (hts t (by simp)) hc
    have := ih _ d hstep (fun u hu => hts u (by simp [hu]))
    simpa [close_channel_runs, List.foldl_cons] using this

lemma close_channel_marked_deletion (roleKV hostRoleKV : Option Nat)
    (isOrganizer isHost : Bool) (t : Nat) (s s1 : ChannelCloseState)
    (h : close_channel roleKV hostRoleKV isOrganizer isHost t s = .ok (s1, .marked)) :
    s1.deletion_time = some t := by
  have hmark : (close_channel_mark t s).2 = .marked →
      (close_channel_mark t s).1.deletion_time = some t := by
    rcases hdel : s.deletion_time with _ | current
    · simp [close_channel_mark, hdel]
    · by_cases hlt : t > current
      · simp [close_channel_mark, hdel, hlt]
      · simp [close_channel_mark, hdel, hlt]
  unfold close_channel at h
  split at h
  · exact absurd h (by simp)
  · simp at h
  · split at h
    · simp at h
    · split at h
      · split at h
        · simp at h
        · simp at h
          have h1 := congrArg Prod.fst h
          have h2 := congrArg Prod.snd h
          simp at h1 h2
          rw [← h1]
          exact hmark h2
      · simp at h
        have h1 := congrArg Prod.fst h
        have h2 := congrArg Prod.snd h
        simp at h1 h2
        rw [← h1]
        exact hmark h2

/-- Claim C2 counterexample: with an empty Store, linking Discord user 3 to
Meetup user 7 and then unlinking Discord user 3 does not restore the Store:
the global set `meetup_users` has gained an element, because `unlink_meetup`
deletes only the two direction keys and never shrinks the global sets. -/
theorem claim_c2_counterexample :
    (unlink_meetup
        (link_meetup_organizer true
          ⟨fun _ => none, fun _ => none, ∅, ∅⟩ 3 7).1 3).1.meetup_users ≠
      (⟨fun _ => none, fun _ => none, ∅, ∅⟩ : LinkState).meetup_users := by
  decide

/-- Claim C2 (amended): if neither side is bound beforehand, the organizer
link of (d, e) followed by unlink of d restores both direction maps at every
key, but the global sets `meetup_users` and `discord_users` are not
restored: they end up with e respectively d inserted. -/
theorem claim_c2_roundtrip_amended :
    ∀ (s : LinkState) (d e : Nat),
    s.d2m d = none → s.m2d e = none →
    (link_meetup_organizer true s d e).2 = .success
    ∧ (∀ x, (unlink_meetup (link_meetup_organizer true s d e).1 d).1.d2m x = s.d2m x)
    ∧ (∀ y, (unlink_meetup (link_meetup_organizer true s d e).1 d).1.m2d y = s.m2d y)
    ∧ (unlink_meetup (link_meetup_organizer true s d e).1 d).1.meetup_users
        = insert e s.meetup_users
    ∧ (unlink_meetup (link_meetup_organizer true s d e).1 d).1.discord_users
        = insert d s.discord_users := by
  intro s d e hd he
  have hlink :
      link_meetup_organizer true s d e =
        ({ d2m := fun x => if x = d then some e else s.d2m x,
           m2d := fun y => if y = e then some d else s.m2d y,
           meetup_users := insert e s.meetup_users,
           discord_users := insert d s.discord_users }, .success) := by
    unfold link_meetup_organizer
    rw [hd, he]
    rfl
  refine ⟨by rw [hlink], ?_, ?_, ?_, ?_⟩
  · intro x
    rw [hlink]
    unfold unlink_meetup
    by_cases hx : x = d
    · simp [hx, hd]
    · simp [hx]
  · intro y
    rw [hlink]
    unfold unlink_meetup
    by_cases hy : y = e
    · simp [hy, he]
    · simp [hy]
  · rw [hlink]
    unfold unlink_meetup
    simp
  · rw [hlink]
    unfold unlink_meetup
    simp

/-- Claim C2 witness: concrete round trip on the empty Store. -/
theorem claim_c2_witness :
    ((⟨fun _ => none, fun _ => none, ∅, ∅⟩ : LinkState).d2m 3 = none)
    ∧ ((⟨fun _ => none, fun _ => none, ∅, ∅⟩ : LinkState).m2d 7 = none)
    ∧ (link_meetup_organizer true ⟨fun _ => none, fun _ => none, ∅, ∅⟩ 3 7).2
        = .success
    ∧ (unlink_meetup
        (link_meetup_organizer true
          ⟨fun _ => none, fun _ => none, ∅, ∅⟩ 3 7).1 3).1.d2m 3
        = (⟨fun _ => none, fun _ => none, ∅, ∅⟩ : LinkState).d2m 3
    ∧ (unlink_meetup
        (link_meetup_organizer true
          ⟨fun _ => none, fun _ => none, ∅, ∅⟩ 3 7).1 3).1.meetup_users
        = insert 7 (⟨fun _ => none, fun _ => none, ∅, ∅⟩ : LinkState).meetup_users :=
  ⟨rfl, rfl,
   (claim_c2_roundtrip_amended ⟨fun _ => none, fun _ => none, ∅, ∅⟩ 3 7 rfl rfl).1,
   (claim_c2_roundtrip_amended ⟨fun _ => none, fun _ => none, ∅, ∅⟩ 3 7 rfl rfl).2.1 3,
   (claim_c2_roundtrip_amended ⟨fun _ => none, fun _ => none, ∅, ∅⟩ 3 7 rfl rfl).2.2.2.1⟩

/-- Claim C3 counterexample: at time 5 on a channel whose stored
deletion_time is 7 (so deletion_time ≥ now), the command does not refuse
with the already-marked message; it overwrites deletion_time with 5 and
reports success, contradicting the claimed refusal condition. -/
theorem claim_c3_counterexample :
    5 ≤ 7
    ∧ close_channel (some 10) (some 20) true false 5
        { expiration_time := none, deletion_time := some 7 } =
      .ok ({ expiration_time := none, deletion_time := some 5 }, .marked) :=
  ⟨by decide, rfl⟩

/-- Claim C3 (amended): after the bot-control, authorization and
expiration checks pass, `close_channel` refuses with the already-marked
message exactly when the stored deletion_time is set and strictly earlier
than the current time (the Store is then left unchanged); only otherwise
is deletion_time written, and it is set to now. -/
theorem claim_c3_close_refusal_amended :
    ∀ (roleId hostRoleId now : Nat) (isOrganizer isHost : Bool)
      (s : ChannelCloseState),
    (isOrganizer || isHost) = true →
    expirationBlocks s now = false →
    ((close_channel (some roleId) (some hostRoleId) isOrganizer isHost now s
        = .ok (s, .alreadyMarked))
      ↔ deletionTimePassed s now = true)
    ∧ (deletionTimePassed s now = false →
        close_channel (some roleId) (some hostRoleId) isOrganizer isHost now s
          = .ok ({ s with deletion_time := some now }, .marked)) := by
  intro roleId hostRoleId now isOrganizer isHost s hauth hexp
  have hb : (!isOrganizer && !isHost) = false := by
    rcases isOrganizer with _ | _ <;> rcases isHost with _ | _ <;> simp_all
  have hmain :
      close_channel (some roleId) (some hostRoleId) isOrganizer isHost now s
        = .ok (close_channel_mark now s) := by
    unfold close_channel get_channel_roles
    rw [hb]
    simp
    rcases he : s.expiration_time with _ | expiration
    · simp
    · unfold expirationBlocks at hexp
      rw [he] at hexp
      simp at hexp
      simp [he, hexp]
  constructor
  · rw [hmain]
    unfold close_channel_mark deletionTimePassed
    rcases hdel : s.deletion_time with _ | current
    · simp
    · by_cases hlt : now > current
      · simp [hlt]
      · simp [hlt]
  · intro hpass
    rw [hmain]
    unfold close_channel_mark
    unfold deletionTimePassed at hpass
    rcases hdel : s.deletion_time with _ | current
    · simp
    · rw [hdel] at hpass
      simp at hpass
      simp [hpass]

/-- Claim C3 witness: at time 5 with stored deletion_time 3 the command
refuses with the already-marked message and leaves the Store unchanged. -/
theorem claim_c3_witness :
    (true || false) = true
    ∧ expirationBlocks { expiration_time := none, deletion_time := some 3 } 5 = false
    ∧ ((close_channel (some 1) (some 2) true false 5
          { expiration_time := none, deletion_time := some 3 }
          = .ok ({ expiration_time := none, deletion_time := some 3 }, .alreadyMarked))
        ↔ deletionTimePassed { expiration_time := none, deletion_time := some 3 } 5 = true)
    ∧ (deletionTimePassed { expiration_time := none, deletion_time := some 3 } 5 = false →
        close_channel (some 1) (some 2) true false 5
          { expiration_time := none, deletion_time := some 3 }
          = .ok ({ expiration_time := none, deletion_time := some 5 }, .marked)) :=
  ⟨rfl, rfl,
   (claim_c3_close_refusal_amended 1 2 5 true false
     { expiration_time := none, deletion_time := some 3 } rfl rfl).1,
   (claim_c3_close_refusal_amended 1 2 5 true false
     { expiration_time := none, deletion_time := some 3 } rfl rfl).2⟩

/-- Claim C4: once a `close_channel` invocation at time t0 succeeds in
marking the channel, any further sequence of invocations at times ≥ t0
(so in particular any non-decreasing sequence continuing from t0) leaves
the stored deletion_time exactly at t0: repeated close_channel calls never
advance deletion_time. -/
theorem claim_c4_close_idempotent :
    ∀ (roleKV hostRoleKV : Option Nat) (isOrganizer isHost : Bool)
      (t0 : Nat) (s s1 : ChannelCloseState) (ts : List Nat),
    close_channel roleKV hostRoleKV isOrganizer isHost t0 s = .ok (s1, .marked) →
    (∀ t ∈ ts, t0 ≤ t) →
    (close_channel_runs roleKV hostRoleKV isOrganizer isHost ts s1).deletion_time
      = some t0 := by
  intro roleKV hostRoleKV isOrganizer isHost t0 s s1 ts hmk hts
  exact close_channel_runs_keeps roleKV hostRoleKV isOrganizer isHost ts s1 t0
    (close_channel_marked_deletion roleKV hostRoleKV isOrganizer isHost t0 s s1 hmk) hts

/-- Claim C4 witness: marking at time 5 and then invoking again at times
5, 6 and 7 leaves deletion_time at 5. -/
theorem claim_c4_witness :
    close_channel (some 1) (some 2) true false 5
        { expiration_time := none, deletion_time := none }
      = .ok ({ expiration_time := none, deletion_time := some 5 }, .marked)
    ∧ (∀ t ∈ [5, 6, 7], 5 ≤ t)
    ∧ (close_channel_runs (some 1) (some 2) true false [5, 6, 7]
        { expiration_time := none, deletion_time := some 5 }).deletion_time
      = some 5 :=
  ⟨rfl, by decide,
   claim_c4_close_idempotent (some 1) (some 2) true false 5
     { expiration_time := none, deletion_time := none }
     { expiration_time := none, deletion_time := some 5 } [5, 6, 7] rfl (by decide)⟩

lemma sync_user_role_assignments_keeps_out (meetupUserIds : List Nat)
    (m2d : Nat → Option Nat) (ch : ChannelState) (g : GuildState)
    (role : Nat) (isHostRole : Bool) (u rq : Nat)
    (hu : u ∈ ch.removed_users) (hg : u ∉ g.roleMembers rq) :
    u ∉ (sync_user_role_assignments meetupUserIds m2d ch g role isHostRole).roleMembers rq := by
  unfold sync_user_role_assignments
  by_cases hr : rq = role
  · subst hr
    simp only [if_pos rfl]
    intro hmem
    rcases Finset.mem_union.mp hmem with hold | hnew
    · exact hg hold
    · rw [List.mem_toFinset, List.mem_filter] at hnew
      have := hnew.2
      rcases isHostRole with _ | _
      · simp [hu] at this
      · simp [hu] at this
  · simpa [hr] using hg

lemma sweep_roles_keeps_out (inp : SweepInput) (userRole hostRole : Nat)
    (ch : ChannelState) (g : GuildState) (u : Nat)
    (hu : u ∈ ch.removed_users)
    (hgu : u ∉ g.roleMembers userRole) (hgh : u ∉ g.roleMembers hostRole) :
    u ∉ (sweep_roles inp userRole hostRole ch g).roleMembers userRole
    ∧ u ∉ (sweep_roles inp userRole hostRole ch g).roleMembers hostRole := by
  unfold sweep_roles
  constructor
  · exact sync_user_role_assignments_keeps_out _ _ _ _ _ _ _ _ hu
      (sync_user_role_assignments_keeps_out _ _ _ _ _ _ _ _ hu hgu)
  · exact sync_user_role_assignments_keeps_out _ _ _ _ _ _ _ _ hu
      (sync_user_role_assignments_keeps_out _ _ _ _ _ _ _ _ hu hgh)

lemma sweep_roles_runs_keeps_out (userRole hostRole : Nat) (ch : ChannelState)
    (u : Nat) (hu : u ∈ ch.removed_users) :
    ∀ (inps : List SweepInput) (g : GuildState),
      u ∉ g.roleMembers userRole → u ∉ g.roleMembers hostRole →
      u ∉ (sweep_roles_runs inps userRole hostRole ch g).roleMembers userRole
      ∧ u ∉ (sweep_roles_runs inps userRole hostRole ch g).roleMembers hostRole := by
  intro inps
  induction inps with
  | nil => intro g hgu hgh; exact ⟨by simpa [sweep_roles_runs] using hgu,
      by simpa [sweep_roles_runs] using hgh⟩
  | cons inp inps ih =>
    intro g hgu hgh
    have hstep := sweep_roles_keeps_out inp userRole hostRole ch g u hu hgu hgh
    have := ih (sweep_roles inp userRole hostRole ch g) hstep.1 hstep.2
    simpa [sweep_roles_runs, List.foldl_cons] using this

lemma guild_remove_role_not_mem (g : GuildState) (role other u : Nat) :
    u ∉ (guild_remove_role (guild_remove_role g role u) other u).roleMembers role
    ∧ u ∉ (guild_remove_role (guild_remove_role g role u) other u).roleMembers other := by
  constructor
  · by_cases h : role = other
    · subst h; simp [guild_remove_role]
    · simp [guild_remove_role, h, Ne.symm h]
  · simp [guild_remove_role]

/-- Claim C5: a remove command with as_host = false records the user in the
channel's removed_users set, and after that no sequence of reconciliation
sweeps (with arbitrary RSVP data and identity maps) ever re-adds that user
to the channel's user role or host role: for the host role the suppression
set is removed_hosts union removed_users, for the user role it is
removed_users, and sweeps never clear these sets. -/
theorem claim_c5_removal_suppression :
    ∀ (userRole hostRole : Nat) (g : GuildState) (ch : ChannelState) (u : Nat)
      (inps : List SweepInput),
    channel_add_or_remove_user (some userRole) (some hostRole) true false g ch u
        false false
      = .ok (guild_remove_role (guild_remove_role g hostRole u) userRole u,
             { ch with removed_users := insert u ch.removed_users }, .done)
    ∧ u ∈ ({ ch with removed_users := insert u ch.removed_users } : ChannelState).removed_users
    ∧ u ∉ (sweep_roles_runs inps userRole hostRole
             { ch with removed_users := insert u ch.removed_users }
             (guild_remove_role (guild_remove_role g hostRole u) userRole u)).roleMembers userRole
    ∧ u ∉ (sweep_roles_runs inps userRole hostRole
             { ch with removed_users := insert u ch.removed_users }
             (guild_remove_role (guild_remove_role g hostRole u) userRole u)).roleMembers hostRole := by
  intro userRole hostRole g ch u inps
  have hu : u ∈ ({ ch with removed_users := insert u ch.removed_users } : ChannelState).removed_users := by
    simp
  have hrem := guild_remove_role_not_mem g hostRole userRole u
  have hruns := sweep_roles_runs_keeps_out userRole hostRole
    { ch with removed_users := insert u ch.removed_users } u hu inps
    (guild_remove_role (guild_remove_role g hostRole u) userRole u)
    hrem.2 hrem.1
  exact ⟨rfl, hu, hruns.1, hruns.2⟩

/-- Claim C7: the admin commands decide bot-control by reading both the
channel's discord_role and discord_host_role keys: both present yields
the two role ids for the command to proceed with, both absent makes the
command reply that the channel is not bot-controlled and change nothing,
and exactly one present is a schema-violation error. -/
theorem claim_c7_channel_roles_gate :
    ∀ (r h : Nat) (g : GuildState) (ch : ChannelState) (discordId : Nat)
      (add asHost isOrganizer isHost : Bool),
    get_channel_roles (some r) (some h) = .ok (some { user := r, host := h })
    ∧ get_channel_roles none none = .ok none
    ∧ get_channel_roles (some r) none = .error "Channel has only one of two roles"
    ∧ get_channel_roles none (some h) = .error "Channel has only one of two roles"
    ∧ channel_add_or_remove_user none none isOrganizer isHost g ch discordId add asHost
        = .ok (g, ch, .notBotControlled)
    ∧ (∃ e, channel_add_or_remove_user (some r) none isOrganizer isHost g ch
        discordId add asHost = .error e) :=
  fun _ _ _ _ _ _ _ _ _ => ⟨rfl, rfl, rfl, rfl, rfl, ⟨_, rfl⟩⟩

/-- Claim C8: an authorized remove on a bot-controlled channel always takes
the host role away from the target; the user role is additionally removed
exactly when as_host is false; and the target is recorded in removed_hosts
when as_host is true, in removed_users when as_host is false. -/
theorem claim_c8_remove_semantics :
    ∀ (userRole hostRole : Nat) (isOrganizer isHost : Bool) (g : GuildState)
      (ch : ChannelState) (discordId : Nat) (asHost : Bool),
    (isOrganizer || isHost) = true → userRole ≠ hostRole →
    ∃ g2 ch2,
      channel_add_or_remove_user (some userRole) (some hostRole) isOrganizer isHost
          g ch discordId false asHost = .ok (g2, ch2, .done)
      ∧ discordId ∉ g2.roleMembers hostRole
      ∧ (asHost = false → discordId ∉ g2.roleMembers userRole)
      ∧ (asHost = true → g2.roleMembers userRole = g.roleMembers userRole)
      ∧ (asHost = true → ch2.removed_hosts = insert discordId ch.removed_hosts
          ∧ ch2.removed_users = ch.removed_users)
      ∧ (asHost = false → ch2.removed_users = insert discordId ch.removed_users
          ∧ ch2.removed_hosts = ch.removed_hosts) := by
  intro userRole hostRole isOrganizer isHost g ch discordId asHost hauth hne
  have hb : (!isOrganizer && !isHost) = false := by
    rcases isOrganizer with _ | _ <;> rcases isHost with _ | _ <;> simp_all
  rcases asHost with _ | _
  · refine ⟨guild_remove_role (guild_remove_role g hostRole discordId) userRole discordId,
      { ch with removed_users := insert discordId ch.removed_users }, ?_, ?_, ?_, ?_, ?_, ?_⟩
    · unfold channel_add_or_remove_user get_channel_roles
      rw [hb]
      rfl
    · exact (guild_remove_role_not_mem g hostRole userRole discordId).1
    · intro _
      exact (guild_remove_role_not_mem g hostRole userRole discordId).2
    · intro hct; cases hct
    · intro hct; cases hct
    · intro _; exact ⟨rfl, rfl⟩
  · refine ⟨guild_remove_role g hostRole discordId,
      { ch with removed_hosts := insert discordId ch.removed_hosts }, ?_, ?_, ?_, ?_, ?_, ?_⟩
    · unfold channel_add_or_remove_user get_channel_roles
      rw [hb]
      rfl
    · simp [guild_remove_role]
    · intro hct; cases hct
    · intro _
      simp [guild_remove_role, hne]
    · intro _; exact ⟨rfl, rfl⟩
    · intro hct; cases hct

/-- Claim C8 witness: removing user 9 as a plain user from a channel with
user role 1 and host role 2, issued by an organizer. -/
theorem claim_c8_witness :
    (true || false) = true
    ∧ (1 : Nat) ≠ 2
    ∧ (∃ g2 ch2,
        channel_add_or_remove_user (some 1) (some 2) true false
            ⟨fun _ => {9}⟩ ⟨∅, ∅⟩ 9 false false = .ok (g2, ch2, .done)
        ∧ (9 : Nat) ∉ g2.roleMembers 2
        ∧ (false = false → (9 : Nat) ∉ g2.roleMembers 1)
        ∧ (false = true → g2.roleMembers 1 = (⟨fun _ => {9}⟩ : GuildState).roleMembers 1)
        ∧ (false = true → ch2.removed_hosts = insert 9 (∅ : Finset Nat)
            ∧ ch2.removed_users = (∅ : Finset Nat))
        ∧ (false = false → ch2.removed_users = insert 9 (∅ : Finset Nat)
            ∧ ch2.removed_hosts = (∅ : Finset Nat))) :=
  ⟨rfl, by decide,
   claim_c8_remove_semantics 1 2 true false ⟨fun _ => {9}⟩ ⟨∅, ∅⟩ 9 false rfl (by decide)⟩

lemma roleSyncStep_keeps_bound (s : RoleSlotState) (a : RoleSyncAction) (v : Nat)
    (h : s.channelRole = some v) : (roleSyncStep s a).channelRole = some v := by
  rcases a with t | ⟨c, t⟩ | ⟨t, b, ok⟩
  · simpa using h
  · simp only [roleSyncStep]
    unfold role_bind_txn
    rw [h]
    exact h
  · simp only [roleSyncStep]
    unfold role_discard_temp
    by_cases hbt : b ≠ t
    · rcases ok with _ | _ <;> simpa [hbt] using h
    · simpa [hbt] using h

lemma roleSync_foldl_keeps_bound (v : Nat) :
    ∀ (acts : List RoleSyncAction) (s : RoleSlotState),
      s.channelRole = some v → (acts.foldl roleSyncStep s).channelRole = some v := by
  intro acts
  induction acts with
  | nil => intro s h; simpa using h
  | cons a acts ih =>
    intro s h
    simpa [List.foldl_cons] using ih (roleSyncStep s a) (roleSyncStep_keeps_bound s a v h)

lemma channelSyncStep_keeps_bound (s : ChannelSlotState) (a : ChannelSyncAction)
    (v : Nat) (h : s.seriesChannel = some v) :
    (channelSyncStep s a).seriesChannel = some v := by
  rcases a with t | ⟨sid, t⟩ | ⟨t, b, ok⟩
  · simpa using h
  · simp only [channelSyncStep]
    unfold channel_bind_txn
    rw [h]
    exact h
  · simp only [channelSyncStep]
    unfold channel_discard_temp
    by_cases hbt : b ≠ t
    · rcases ok with _ | _ <;> simpa [hbt] using h
    · simpa [hbt] using h

lemma channelSync_foldl_keeps_bound (v : Nat) :
    ∀ (acts : List ChannelSyncAction) (s : ChannelSlotState),
      s.seriesChannel = some v → (acts.foldl channelSyncStep s).seriesChannel = some v := by
  intro acts
  induction acts with
  | nil => intro s h; simpa using h
  | cons a acts ih =>
    intro s h
    simpa [List.foldl_cons] using ih (channelSyncStep s a) (channelSyncStep_keeps_bound s a v h)

/-- Claim C1: for a series-channel slot or a channel-role slot, once some id
is bound, any interleaving of atomic steps of racing ensure-style sync
calls leaves that binding unchanged (so at most one id is ever bound); a
bind transaction that finds an id already written keeps the Store
unchanged and returns that id instead of the temporary one; and a losing
temporary resource is either deleted remotely or, on deletion failure,
recorded in the corresponding orphaned set. -/
theorem claim_c1_slot_bind_or_discard :
    ∀ (sR : RoleSlotState) (v channelId tempR boundR : Nat)
      (actsR : List RoleSyncAction)
      (sC : ChannelSlotState) (w : Nat) (eventSeriesId : String)
      (tempC boundC : Nat) (actsC : List ChannelSyncAction),
    sR.channelRole = some v → boundR ≠ tempR →
    sC.seriesChannel = some w → boundC ≠ tempC →
    (actsR.foldl roleSyncStep sR).channelRole = some v
    ∧ role_bind_txn sR channelId tempR = (sR, v)
    ∧ tempR ∉ (role_discard_temp sR tempR boundR true).remoteRoles
    ∧ tempR ∈ (role_discard_temp sR tempR boundR false).orphanedDiscordRoles
    ∧ (actsC.foldl channelSyncStep sC).seriesChannel = some w
    ∧ channel_bind_txn sC eventSeriesId tempC = (sC, w)
    ∧ tempC ∉ (channel_discard_temp sC tempC boundC true).remoteChannels
    ∧ tempC ∈ (channel_discard_temp sC tempC boundC false).orphanedDiscordChannels := by
  intro sR v channelId tempR boundR actsR sC w eventSeriesId tempC boundC actsC
  intro hR hbr hC hbc
  refine ⟨roleSync_foldl_keeps_bound v actsR sR hR, ?_, ?_, ?_,
    channelSync_foldl_keeps_bound w actsC sC hC, ?_, ?_, ?_⟩
  · unfold role_bind_txn; rw [hR]
  · simp [role_discard_temp, hbr]
  · simp [role_discard_temp, hbr]
  · unfold channel_bind_txn; rw [hC]
  · simp [channel_discard_temp, hbc]
  · simp [channel_discard_temp, hbc]

/-- Claim C1 witness: a concrete interleaving (a racing bind, a stray
creation, a losing discard) over a role slot bound to 5 and a channel slot
bound to 6. -/
theorem claim_c1_witness :
    (⟨some 5, fun _ => none, ∅, ∅, ∅⟩ : RoleSlotState).channelRole = some 5
    ∧ (5 : Nat) ≠ 9
    ∧ (⟨some 6, fun _ => none, ∅, ∅, ∅⟩ : ChannelSlotState).seriesChannel = some 6
    ∧ (6 : Nat) ≠ 8
    ∧ (([RoleSyncAction.bindTxn 1 9, RoleSyncAction.createRole 4,
         RoleSyncAction.discardTemp 9 5 true].foldl roleSyncStep
          ⟨some 5, fun _ => none, ∅, ∅, ∅⟩).channelRole = some 5
    ∧ role_bind_txn ⟨some 5, fun _ => none, ∅, ∅, ∅⟩ 1 9
        = (⟨some 5, fun _ => none, ∅, ∅, ∅⟩, 5)
    ∧ (9 : Nat) ∉ (role_discard_temp ⟨some 5, fun _ => none, ∅, ∅, ∅⟩ 9 5 true).remoteRoles
    ∧ (9 : Nat) ∈ (role_discard_temp ⟨some 5, fun _ => none, ∅, ∅, ∅⟩ 9 5 false).orphanedDiscordRoles
    ∧ (([ChannelSyncAction.bindTxn "S1" 8, ChannelSyncAction.createChannel 3,
         ChannelSyncAction.discardTemp 8 6 false].foldl channelSyncStep
          ⟨some 6, fun _ => none, ∅, ∅, ∅⟩).seriesChannel = some 6)
    ∧ channel_bind_txn ⟨some 6, fun _ => none, ∅, ∅, ∅⟩ "S1" 8
        = (⟨some 6, fun _ => none, ∅, ∅, ∅⟩, 6)
    ∧ (8 : Nat) ∉ (channel_discard_temp ⟨some 6, fun _ => none, ∅, ∅, ∅⟩ 8 6 true).remoteChannels
    ∧ (8 : Nat) ∈ (channel_discard_temp ⟨some 6, fun _ => none, ∅, ∅, ∅⟩ 8 6 false).orphanedDiscordChannels) :=
  ⟨rfl, by decide, rfl, by decide,
   claim_c1_slot_bind_or_discard ⟨some 5, fun _ => none, ∅, ∅, ∅⟩ 5 1 9 5
     [RoleSyncAction.bindTxn 1 9, RoleSyncAction.createRole 4,
      RoleSyncAction.discardTemp 9 5 true]
     ⟨some 6, fun _ => none, ∅, ∅, ∅⟩ 6 "S1" 8 6
     [ChannelSyncAction.bindTxn "S1" 8, ChannelSyncAction.createChannel 3,
      ChannelSyncAction.discardTemp 8 6 false]
     rfl (by decide) rfl (by decide)⟩

/-- Claim C6: when the recorded id does not exist remotely, the repair
transaction deletes the stale binding (slot key, reverse key, global-set
membership) only if the slot still holds the observed value and otherwise
leaves the Store unchanged; the sync loop then retries from the fast path
with a budget of exactly one additional attempt and returns the
max-retries-reached error once that budget is exhausted. -/
theorem claim_c6_repair_and_retry :
    ∀ (s1 s2 : RoleSlotState) (observed : Nat)
      (envR : RoleSyncEnv) (channelId : Nat) (sR : RoleSlotState)
      (t1 t2 : ChannelSlotState) (observedC : Nat)
      (envC : ChannelSyncEnv) (eventSeriesId : String) (sC : ChannelSlotState),
    s1.channelRole = some observed → s2.channelRole ≠ some observed →
    envR.roleExists 0 = false →
    t1.seriesChannel = some observedC → t2.seriesChannel ≠ some observedC →
    envC.channelExists 0 = false →
    role_repair_txn s1 observed
      = { s1 with
            channelRole := none,
            roleChannel := fun r => if r = observed then none else s1.roleChannel r,
            discordRoles := s1.discordRoles.erase observed }
    ∧ role_repair_txn s2 observed = s2
    ∧ (envR.roleExists 1 = false →
        sync_role envR channelId sR = .error "Role sync failed, max retries reached")
    ∧ (envR.roleExists 1 = true →
        sync_role envR channelId sR
          = .ok (sync_role_impl
              (role_repair_txn
                (sync_role_impl sR channelId (envR.tempRoleId 0) (envR.deleteOk 0)).1
                (sync_role_impl sR channelId (envR.tempRoleId 0) (envR.deleteOk 0)).2)
              channelId (envR.tempRoleId 1) (envR.deleteOk 1)))
    ∧ channel_repair_txn t1 observedC
      = { t1 with
            seriesChannel := none,
            channelSeries := fun c => if c = observedC then none else t1.channelSeries c,
            discordChannels := t1.discordChannels.erase observedC }
    ∧ channel_repair_txn t2 observedC = t2
    ∧ (envC.channelExists 1 = false →
        sync_channel envC eventSeriesId sC
          = .error "Channel sync failed, max retries reached")
    ∧ (envC.channelExists 1 = true →
        sync_channel envC eventSeriesId sC
          = .ok (sync_channel_impl
              (channel_repair_txn
                (sync_channel_impl sC eventSeriesId (envC.tempChannelId 0) (envC.deleteOk 0)).1
                (sync_channel_impl sC eventSeriesId (envC.tempChannelId 0) (envC.deleteOk 0)).2)
              eventSeriesId (envC.tempChannelId 1) (envC.deleteOk 1))) := by
  intro s1 s2 observed envR channelId sR t1 t2 observedC envC eventSeriesId sC
  intro h1 h2 hex0 hc1 hc2 hcex0
  refine ⟨by simp [role_repair_txn, h1], by simp [role_repair_txn, h2], ?_, ?_,
    by simp [channel_repair_txn, hc1], by simp [channel_repair_txn, hc2], ?_, ?_⟩
  · intro hex1
    simp [sync_role, max_retries, sync_role_loop, hex0, hex1]
  · intro hex1
    simp [sync_role, max_retries, sync_role_loop, hex0, hex1]
  · intro hcex1
    simp [sync_channel, max_retries, sync_channel_loop, hcex0, hcex1]
  · intro hcex1
    simp [sync_channel, max_retries, sync_channel_loop, hcex0, hcex1]

/-- Claim C6 witness: a role slot bound to a stale id with both liveness
probes failing reaches the max-retries error; with the second probe
succeeding the loop performs exactly one repaired retry; and the repair
transaction is exercised on a matching and on a changed slot. -/
theorem claim_c6_witness :
    (⟨some 5, fun _ => none, ∅, ∅, ∅⟩ : RoleSlotState).channelRole = some 5
    ∧ (⟨none, fun _ => none, ∅, ∅, ∅⟩ : RoleSlotState).channelRole ≠ some 5
    ∧ (⟨fun _ => 9, fun _ => true, fun _ => false⟩ : RoleSyncEnv).roleExists 0 = false
    ∧ (⟨some 6, fun _ => none, ∅, ∅, ∅⟩ : ChannelSlotState).seriesChannel = some 6
    ∧ (⟨none, fun _ => none, ∅, ∅, ∅⟩ : ChannelSlotState).seriesChannel ≠ some 6
    ∧ (⟨fun _ => 9, fun _ => true, fun _ => false⟩ : ChannelSyncEnv).channelExists 0 = false
    ∧ ((⟨fun _ => 9, fun _ => true, fun _ => false⟩ : RoleSyncEnv).roleExists 1 = false →
        sync_role ⟨fun _ => 9, fun _ => true, fun _ => false⟩ 1
          ⟨some 5, fun _ => none, ∅, ∅, ∅⟩
          = .error "Role sync failed, max retries reached")
    ∧ ((⟨fun _ => 9, fun _ => true, fun _ => false⟩ : ChannelSyncEnv).channelExists 1 = false →
        sync_channel ⟨fun _ => 9, fun _ => true, fun _ => false⟩ "S1"
          ⟨some 6, fun _ => none, ∅, ∅, ∅⟩
          = .error "Channel sync failed, max retries reached")
    ∧ role_repair_txn ⟨some 5, fun _ => none, ∅, ∅, ∅⟩ 5
      = { channelRole := none,
          roleChannel := fun r => if r = 5 then none
            else (⟨some 5, fun _ => none, ∅, ∅, ∅⟩ : RoleSlotState).roleChannel r,
          discordRoles := (∅ : Finset Nat).erase 5,
          orphanedDiscordRoles := ∅, remoteRoles := ∅ }
    ∧ role_repair_txn ⟨none, fun _ => none, ∅, ∅, ∅⟩ 5
      = ⟨none, fun _ => none, ∅, ∅, ∅⟩ :=
  have h := claim_c6_repair_and_retry
    ⟨some 5, fun _ => none, ∅, ∅, ∅⟩ ⟨none, fun _ => none, ∅, ∅, ∅⟩ 5
    ⟨fun _ => 9, fun _ => true, fun _ => false⟩ 1 ⟨some 5, fun _ => none, ∅, ∅, ∅⟩
    ⟨some 6, fun _ => none, ∅, ∅, ∅⟩ ⟨none, fun _ => none, ∅, ∅, ∅⟩ 6
    ⟨fun _ => 9, fun _ => true, fun _ => false⟩ "S1" ⟨some 6, fun _ => none, ∅, ∅, ∅⟩
    rfl (by simp) rfl rfl (by simp) rfl
  ⟨rfl, by simp, rfl, rfl, by simp, rfl, h.2.2.1, h.2.2.2.2.2.2.1, h.1, h.2.1⟩

/-- Claim C9: during a series sync the series name is the capture of the
anchored EVENT_NAME_REGEX on the earliest upcoming event's name, a regex
miss or a captured byte length outside 2..80 fails the series sync, and
for an earliest event named "Dragon Quest [Session 3]" the user role is
named "Dragon Quest" and the host role "[Host] Dragon Quest". -/
theorem claim_c9_series_name :
    ∀ (eventName badName cap : String),
    derive_series_name "Dragon Quest [Session 3]" = .ok "Dragon Quest"
    ∧ host_role_name "Dragon Quest" = "[Host] Dragon Quest"
    ∧ (seriesNameOf eventName = none →
        ∃ msg, derive_series_name eventName = .error msg)
    ∧ (seriesNameOf badName = some cap →
        rustStrLen cap < 2 ∨ rustStrLen cap > 80 →
        ∃ msg, derive_series_name badName = .error msg) := by
  intro eventName badName cap
  refine ⟨rfl, rfl, ?_, ?_⟩
  · intro h
    unfold derive_series_name
    rw [h]
    exact ⟨_, rfl⟩
  · intro h hlen
    unfold derive_series_name
    rw [h]
    rcases hlen with hlt | hgt
    · simp [hlt]
    · simp [hgt]

/-- Claim C9 witness: an event name made of opening parentheses misses the
regex, and an 81-character name is captured whole and rejected by the
length guard. -/
theorem claim_c9_witness :
    seriesNameOf "((((" = none
    ∧ (∃ msg, derive_series_name "((((" = .error msg)
    ∧ seriesNameOf longEventName = some longEventName
    ∧ (rustStrLen longEventName < 2 ∨ rustStrLen longEventName > 80)
    ∧ (∃ msg, derive_series_name longEventName = .error msg) :=
  ⟨rfl,
   (claim_c9_series_name "((((" "((((" "((((").2.2.1 rfl,
   rfl,
   Or.inr (by decide),
   (claim_c9_series_name longEventName longEventName longEventName).2.2.2 rfl
     (Or.inr (by decide))⟩

/-- Claim C10: a direct message whose text starts with the bot mention
string is dispatched with is_dm switched to false, so every DM-or-mention
pattern selector used by the dispatcher resolves to the mention-form
pattern and never to the DM-form pattern. -/
theorem claim_c10_dm_mention_dispatch :
    ∀ (botId : Nat) (content : String),
    ((compile_regexes botId).bot_mention.data.isPrefixOf content.data) = true →
    handler_is_dm (compile_regexes botId) true content = some false
    ∧ (compile_regexes botId).link_meetup false
        = (compile_regexes botId).link_meetup_mention
    ∧ (compile_regexes botId).link_meetup_organizer false
        = (compile_regexes botId).link_meetup_organizer_mention
    ∧ (compile_regexes botId).unlink_meetup false
        = (compile_regexes botId).unlink_meetup_mention
    ∧ (compile_regexes botId).unlink_meetup_organizer false
        = (compile_regexes botId).unlink_meetup_organizer_mention
    ∧ (compile_regexes botId).stop_organizer false
        = (compile_regexes botId).stop_organizer_mention := by
  intro botId content h
  refine ⟨?_, rfl, rfl, rfl, rfl, rfl⟩
  unfold handler_is_dm
  simp [h]

/-- Claim C10 witness: bot id 42 and the direct message
"(at-mention of 42) link meetup". -/
theorem claim_c10_witness :
    ((compile_regexes 42).bot_mention.data.isPrefixOf "<@42> link meetup".data) = true
    ∧ handler_is_dm (compile_regexes 42) true "<@42> link meetup" = some false
    ∧ (compile_regexes 42).link_meetup false = (compile_regexes 42).link_meetup_mention
    ∧ (compile_regexes 42).stop_organizer false = (compile_regexes 42).stop_organizer_mention :=
  have h := claim_c10_dm_mention_dispatch 42 "<@42> link meetup" (by decide)
  ⟨by decide, h.1, h.2.1, h.2.2.2.2.2⟩

end DiscordBot
